import Mathlib

/-!
Verification of the split-management and training-orchestration subsystem of a
radiomics experiment harness: partitioning bookkeeping (`Dataset` /
`FeatureDataset`), the preprocessing (min-max standardization) pipeline, split
(de)serialization, hyperparameter search (grid and trial based) and the
result-table orchestration of the `Trainer`.

Feature tables are embedded as lists of rows of rationals; pandas indices as
natural numbers; fallible Python code as `Except`-valued functions.  The
`fit`/`transform` of sklearn's `MinMaxScaler` is embedded by its documented
arithmetic (per-column min/max, scaling to [0,1], zero ranges mapped to a unit
scale); pandas copy semantics (`df[cols]` returns a copy, `loc` assignment
writes by index label) are embedded by value-passing structures.
-/

namespace Scaler

/-- Column-wise minima of a rectangular feature table (`np.min(X, axis=0)`
as `MinMaxScaler.fit` computes `data_min_`). -/
def colMins : List (List ℚ) → List ℚ
  | [] => []
  | r :: rs => rs.foldl (fun acc row => acc.zipWith min row) r

/-- Column-wise maxima of a rectangular feature table (`np.max(X, axis=0)`
as `MinMaxScaler.fit` computes `data_max_`). -/
def colMaxs : List (List ℚ) → List ℚ
  | [] => []
  | r :: rs => rs.foldl (fun acc row => acc.zipWith max row) r

/-- `MinMaxScaler.fit`: the learned internal state is the list of per-column
(min, max) pairs of the fitted table. -/
def fitScaler (X : List (List ℚ)) : List (ℚ × ℚ) :=
  (colMins X).zip (colMaxs X)

/-- Scale one value by a fitted (min, max) pair: (x - min) / (max - min),
with a zero range replaced by a unit scale as sklearn's
`_handle_zeros_in_scale` does. -/
def scaleVal (p : ℚ × ℚ) (x : ℚ) : ℚ :=
  (x - p.1) / (if p.2 - p.1 = 0 then 1 else p.2 - p.1)

/-- `MinMaxScaler.transform`: scale every row, column by column, by the
fitted state.  It reads the fitted state and never writes it. -/
def transformScaler (s : List (ℚ × ℚ)) (X : List (List ℚ)) : List (List ℚ) :=
  X.map fun row => (row.zip s).map fun xp => scaleVal xp.2 xp.1

end Scaler

namespace Classrad

open Scaler

/-- State of `classrad.data.dataset.Dataset` as far as standardization is
concerned: the source dataframe's feature columns `df`, the full feature
table `X` (a copy of those columns), the partitions, the current
cross-validation fold pair, and the single shared `MinMaxScaler` whose
fitted state is `none` until the first fit. -/
structure Dataset where
  df : List (List ℚ)
  X : List (List ℚ)
  X_train : List (List ℚ)
  X_val : Option (List (List ℚ))
  X_test : List (List ℚ)
  X_train_fold : List (List ℚ)
  X_val_fold : List (List ℚ)
  scaler : Option (List (ℚ × ℚ))
deriving DecidableEq, Repr

/-- `Dataset.standardize_features`: `fit_transform` the shared scaler on
`X_train`, then `transform` `X_val` (when set), `X_test` and the full table
`X` with the fitted state.  Pandas `df[features]` copy semantics mean the
in-place column assignments touch `X`/partitions but not `df`. -/
def standardize_features (d : Dataset) : Dataset :=
  let s := fitScaler d.X_train
  { d with
    scaler := some s
    X_train := transformScaler s d.X_train
    X_val := d.X_val.map (transformScaler s)
    X_test := transformScaler s d.X_test
    X := transformScaler s d.X }

/-- `Dataset.standardize_features_cross_validation`: `fit_transform` the
same shared scaler on the current fold's training subset, then `transform`
the fold's validation subset. -/
def standardize_features_cross_validation (d : Dataset) : Dataset :=
  let s := fitScaler d.X_train_fold
  { d with
    scaler := some s
    X_train_fold := transformScaler s d.X_train_fold
    X_val_fold := transformScaler s d.X_val_fold }

/-- A concrete dataset: one feature column, train rows {0, 2}, test row {1},
current fold with training rows {0, 4} and validation row {1}. -/
def exDataset : Dataset :=
  { df := [[0], [2], [1]]
    X := [[0], [2], [1]]
    X_train := [[0], [2]]
    X_val := none
    X_test := [[1]]
    X_train_fold := [[0], [4]]
    X_val_fold := [[1]]
    scaler := none }

end Classrad

section ClassradTheorems

open Scaler Classrad

/-- C1 (counterexample): after `standardize_features` has fitted the scaler
on the training partition, running `standardize_features_cross_validation`
(the operation that standardizes the fold partitions) refits the shared
scaler on the fold's training subset and changes its fitted min/max state:
the claim that no operation of the run refits the scaler and that fold
standardization leaves the fitted state unchanged fails on `exDataset`. -/
theorem C1_refit_counterexample :
    (standardize_features_cross_validation
        (standardize_features exDataset)).scaler ≠
      (standardize_features exDataset).scaler := by
  decide

/-- C1 (amended): `standardize_features` fits the shared scaler exactly on
the training partition (the resulting state is the min/max of `X_train`) and
its subsequent transforms of validation, test and full tables leave both the
fitted state and the stored fold partitions unchanged; however
`standardize_features_cross_validation` refits the same shared scaler on the
current fold's training subset, replacing the fitted state, so the scaler is
not fitted exactly once across a run that also standardizes folds. -/
theorem C1_scaler_fit_on_train (d : Dataset) :
    (standardize_features d).scaler = some (fitScaler d.X_train) ∧
    (standardize_features d).X_train_fold = d.X_train_fold ∧
    (standardize_features d).X_val_fold = d.X_val_fold ∧
    (standardize_features_cross_validation (standardize_features d)).scaler =
      some (fitScaler d.X_train_fold) :=
  ⟨rfl, rfl, rfl, rfl⟩

/-- C2 (counterexample): `standardize_features` overwrites the full feature
table `X` with scaled values: on `exDataset` the table after the call
differs from the raw table before it. -/
theorem C2_X_mutated_counterexample :
    (standardize_features exDataset).X ≠ exDataset.X := by
  norm_num [standardize_features, exDataset, fitScaler, colMins, colMaxs,
    transformScaler, scaleVal]

/-- C2 (amended): `standardize_features` leaves the source dataframe `df`
unchanged (pandas column extraction copies), but it overwrites the full
feature table `X` and the test partition in place with the values scaled by
the scaler fitted on `X_train`; `X` does not retain the raw values. -/
theorem C2_df_preserved_X_overwritten (d : Dataset) :
    (standardize_features d).df = d.df ∧
    (standardize_features d).X =
      transformScaler (fitScaler d.X_train) d.X ∧
    (standardize_features d).X_test =
      transformScaler (fitScaler d.X_train) d.X_test := by
  exact ⟨rfl, rfl, rfl⟩

end ClassradTheorems

namespace Autorad

/-- Helper for `pandas.DataFrame.drop_duplicates`: scan keeping the first
occurrence of each element, `seen` holding the elements already kept. -/
def dropDupAux {α : Type} [DecidableEq α] (seen : List α) : List α → List α
  | [] => []
  | x :: xs =>
    if x ∈ seen then dropDupAux seen xs else x :: dropDupAux (x :: seen) xs

/-- `pandas.DataFrame.drop_duplicates`: the distinct rows, first occurrences
kept in order. -/
def dropDup {α : Type} [DecidableEq α] (l : List α) : List α :=
  dropDupAux [] l

theorem mem_dropDupAux {α : Type} [DecidableEq α] (x : α) (l : List α) :
    ∀ seen : List α, x ∈ dropDupAux seen l ↔ x ∈ l ∧ x ∉ seen := by
  induction l with
  | nil => intro seen; simp [dropDupAux]
  | cons y ys ih =>
    intro seen
    by_cases hy : y ∈ seen
    · simp only [dropDupAux, if_pos hy, ih, List.mem_cons]
      constructor
      · rintro ⟨h1, h2⟩; exact ⟨Or.inr h1, h2⟩
      · rintro ⟨h1 | h1, h2⟩
        · exact absurd (h1 ▸ hy) h2
        · exact ⟨h1, h2⟩
    · simp only [dropDupAux, if_neg hy, List.mem_cons, ih]
      constructor
      · rintro (rfl | ⟨h1, h2⟩)
        · exact ⟨Or.inl rfl, hy⟩
        · exact ⟨Or.inr h1, fun hs => h2 (Or.inr hs)⟩
      · rintro ⟨h1 | h1, h2⟩
        · exact Or.inl h1
        · by_cases hxy : x = y
          · exact Or.inl hxy
          · refine Or.inr ⟨h1, fun hs => ?_⟩
            rcases hs with h | h
            · exact hxy h
            · exact h2 h

theorem nodup_dropDupAux {α : Type} [DecidableEq α] (l : List α) :
    ∀ seen : List α, (dropDupAux seen l).Nodup := by
  induction l with
  | nil => intro seen; simp [dropDupAux]
  | cons y ys ih =>
    intro seen
    by_cases hy : y ∈ seen
    · simpa [dropDupAux, if_pos hy] using ih seen
    · rw [dropDupAux, if_neg hy, List.nodup_cons]
      refine ⟨fun hmem => ?_, ih (y :: seen)⟩
      exact ((mem_dropDupAux y ys (y :: seen)).mp hmem).2 (List.mem_cons_self y seen)

theorem mem_dropDup {α : Type} [DecidableEq α] (x : α) (l : List α) :
    x ∈ dropDup l ↔ x ∈ l := by
  simp [dropDup, mem_dropDupAux]

/-- The id/label-consistency gate of `FeatureDataset.full_split`: form
`patient_df = df[[split_on, target]].drop_duplicates()`, the distinct
(id, label) pairs of the table, and raise when the resulting id column is
not unique (some id appears with more than one distinct label); otherwise
proceed with the split.  A table row is an (id, label) pair. -/
def full_split_check (rows : List (Nat × Nat)) : Except String Unit :=
  let patient_df := dropDup rows
  if (patient_df.map Prod.fst).Nodup then Except.ok ()
  else Except.error "Selected column has varying labels for the same ID!"

theorem full_split_nodup_iff (rows : List (Nat × Nat)) :
    ((dropDup rows).map Prod.fst).Nodup ↔
      ∀ i a b, (i, a) ∈ rows → (i, b) ∈ rows → a = b := by
  constructor
  · intro hnd i a b ha hb
    have ha' : (i, a) ∈ dropDup rows := (mem_dropDup _ _).mpr ha
    have hb' : (i, b) ∈ dropDup rows := (mem_dropDup _ _).mpr hb
    have := List.inj_on_of_nodup_map hnd ha' hb' rfl
    exact congrArg Prod.snd this
  · intro h
    refine List.Nodup.map_on ?_ (nodup_dropDupAux rows [])
    intro x hx y hy hxy
    have hx' : x ∈ rows := (mem_dropDup _ _).mp hx
    have hy' : y ∈ rows := (mem_dropDup _ _).mp hy
    have h2 : x.2 = y.2 := by
      apply h x.1 x.2 y.2
      · exact hx'
      · rw [hxy]; exact hy'
    exact Prod.ext hxy h2

end Autorad

section AutoradSplitCheck

open Autorad

/-- C3: building the split fails with the dedicated inconsistent-id-label
error exactly when some id of the table carries two distinct labels, and
completes without that error exactly when every id has one label: the check
never silently picks one of several labels. -/
theorem C3_inconsistent_id_label (rows : List (Nat × Nat)) :
    (full_split_check rows =
        Except.error "Selected column has varying labels for the same ID!" ↔
      ∃ i a b, (i, a) ∈ rows ∧ (i, b) ∈ rows ∧ a ≠ b) ∧
    (full_split_check rows = Except.ok () ↔
      ∀ i a b, (i, a) ∈ rows → (i, b) ∈ rows → a = b) := by
  by_cases h : ((dropDup rows).map Prod.fst).Nodup
  · rw [full_split_check]
    simp only [if_pos h]
    have hcons := (full_split_nodup_iff rows).mp h
    constructor
    · constructor
      · intro he; exact absurd he (by simp)
      · rintro ⟨i, a, b, ha, hb, hab⟩
        exact absurd (hcons i a b ha hb) hab
    · exact ⟨fun _ => hcons, fun _ => trivial⟩
  · rw [full_split_check]
    simp only [if_neg h]
    have hinc : ∃ i a b, (i, a) ∈ rows ∧ (i, b) ∈ rows ∧ a ≠ b := by
      by_contra hno
      push_neg at hno
      exact h ((full_split_nodup_iff rows).mpr fun i a b ha hb => hno i a b ha hb)
    constructor
    · exact ⟨fun _ => hinc, fun _ => trivial⟩
    · constructor
      · intro he; exact absurd he (by simp)
      · intro hcons
        rcases hinc with ⟨i, a, b, ha, hb, hab⟩
        exact absurd (hcons i a b ha hb) hab

end AutoradSplitCheck

namespace Autorad

/-- A feature table as the accessors consume it: its column names (the
selected feature list is `list(train.columns)`). -/
structure Frame where
  cols : List String
deriving DecidableEq, Repr

/-- `TrainingInput`: the per-partition bundle of feature tables; only the
train and test members are mandatory in the dataclass. -/
structure TrainingInput where
  train : Frame
  test : Frame
deriving DecidableEq, Repr

/-- `TrainingData`: raw partition bundle plus the `_X_preprocessed` slot the
preprocessor fills, `none` until preprocessing has been performed. -/
structure TrainingData where
  X : TrainingInput
  Xpre : Option TrainingInput
deriving DecidableEq, Repr

/-- `TrainingData.X_preprocessed`: raise when `_X_preprocessed` is unset,
return it otherwise. -/
def X_preprocessed (d : TrainingData) : Except String TrainingInput :=
  match d.Xpre with
  | none => Except.error "Preprocessing not performed!"
  | some v => Except.ok v

/-- `TrainingData.selected_features`: raise when `_X_preprocessed` is unset,
return the preprocessed train table's column list otherwise. -/
def selected_features (d : TrainingData) : Except String (List String) :=
  match d.Xpre with
  | none => Except.error "Feature selection not performed!"
  | some v => Except.ok v.train.cols

/-- Modelled from the spec: the preprocessor (`fit_preprocess`, whose code
is outside `src/`) performs preprocessing by writing the preprocessed
bundle into the `_X_preprocessed` slot of the `TrainingData`. -/
def perform_preprocess (d : TrainingData) (result : TrainingInput) :
    TrainingData :=
  { d with Xpre := some result }

end Autorad

section AutoradTrainingData

open Autorad

/-- C9: on a `TrainingData` on which preprocessing has not been performed
(`_X_preprocessed` unset), requesting the preprocessed features or the
selected-feature list fails with the dedicated unfitted-preprocessor error;
after preprocessing has been performed the same requests succeed and raise
no error. -/
theorem C9_unfitted_preprocessor (d : TrainingData) (r : TrainingInput)
    (h : d.Xpre = none) :
    X_preprocessed d = Except.error "Preprocessing not performed!" ∧
    selected_features d = Except.error "Feature selection not performed!" ∧
    X_preprocessed (perform_preprocess d r) = Except.ok r ∧
    selected_features (perform_preprocess d r) = Except.ok r.train.cols := by
  refine ⟨?_, ?_, rfl, rfl⟩
  · rw [X_preprocessed, h]
  · rw [selected_features, h]

/-- C9 witness: a concrete unpreprocessed `TrainingData` and preprocessing
result exercising `C9_unfitted_preprocessor`. -/
theorem C9_unfitted_preprocessor_witness :
    (TrainingData.mk (TrainingInput.mk (Frame.mk ["f1", "f2"]) (Frame.mk ["f1", "f2"])) none).Xpre
        = none ∧
    (X_preprocessed (TrainingData.mk (TrainingInput.mk (Frame.mk ["f1", "f2"]) (Frame.mk ["f1", "f2"])) none) =
        Except.error "Preprocessing not performed!" ∧
      selected_features (TrainingData.mk (TrainingInput.mk (Frame.mk ["f1", "f2"]) (Frame.mk ["f1", "f2"])) none) =
        Except.error "Feature selection not performed!" ∧
      X_preprocessed
          (perform_preprocess
            (TrainingData.mk (TrainingInput.mk (Frame.mk ["f1", "f2"]) (Frame.mk ["f1", "f2"])) none)
            (TrainingInput.mk (Frame.mk ["f1"]) (Frame.mk ["f1"]))) =
        Except.ok (TrainingInput.mk (Frame.mk ["f1"]) (Frame.mk ["f1"])) ∧
      selected_features
          (perform_preprocess
            (TrainingData.mk (TrainingInput.mk (Frame.mk ["f1", "f2"]) (Frame.mk ["f1", "f2"])) none)
            (TrainingInput.mk (Frame.mk ["f1"]) (Frame.mk ["f1"]))) =
        Except.ok (Frame.mk ["f1"]).cols) :=
  ⟨rfl, C9_unfitted_preprocessor _ _ rfl⟩

end AutoradTrainingData

namespace Autorad

/-- A pandas dataframe as `ImageDataset` consumes it: an association of
column name to the column's values, `none` standing for a null entry. -/
abbrev AFrame : Type := List (String × List (Option String))

/-- Column lookup, `df[colname]`; `none` when the column is absent. -/
def lookupCol : AFrame → String → Option (List (Option String))
  | [], _ => none
  | (n, v) :: rest, c => if n = c then some v else lookupCol rest c

/-- `ImageDataset._check_if_in_df`: raise when the column is absent or
contains null values, return the column name otherwise. -/
def check_if_in_df (df : AFrame) (c : String) : Except String String :=
  match lookupCol df c with
  | none => Except.error (c ++ " not found in columns of the dataframe.")
  | some vals =>
    if vals.any (fun v => v.isNone) then
      Except.error (c ++ " contains null values")
    else Except.ok c

/-- `ImageDataset._set_ID_col_from_given`: raise when the column is absent;
raise "IDs are not unique!" when the number of distinct values
(`len(ids.unique())`) differs from the number of rows; accept otherwise. -/
def set_ID_col_from_given (df : AFrame) (c : String) : Except String String :=
  match lookupCol df c with
  | none => Except.error (c ++ " not in columns of dataframe.")
  | some ids =>
    if ids.dedup.length ≠ ids.length then Except.error "IDs are not unique!"
    else Except.ok c

/-- `ImageDataset._set_new_IDs`: with no ID column given, append a fresh
sequential-ID column named `ID` (or `ID_autogenerated` when `ID` exists). -/
def set_new_IDs (df : AFrame) : AFrame × String :=
  let name := if (lookupCol df "ID").isSome then "ID_autogenerated" else "ID"
  let nrows := (df.head?.map fun p => p.2.length).getD 0
  (df ++ [(name, (List.range nrows).map fun i => some (toString i))], name)

/-- The record `ImageDataset.__init__` leaves behind on success. -/
structure ImageDataset where
  df : AFrame
  image_colname : String
  mask_colname : String
  ID_colname : String

/-- `ImageDataset.__init__`: check the image and mask columns, then set the
ID column — from the given column (validating uniqueness) or freshly; the
first raised error aborts construction. -/
def imageDatasetInit (df : AFrame) (image mask : String)
    (idcol : Option String) : Except String ImageDataset :=
  match check_if_in_df df image with
  | Except.error e => Except.error e
  | Except.ok ic =>
    match check_if_in_df df mask with
    | Except.error e => Except.error e
    | Except.ok mc =>
      match idcol with
      | some c =>
        match set_ID_col_from_given df c with
        | Except.error e => Except.error e
        | Except.ok idc => Except.ok (ImageDataset.mk df ic mc idc)
      | none =>
        let p := set_new_IDs df
        Except.ok (ImageDataset.mk p.1 ic mc p.2)

theorem dedup_length_eq_iff_nodup {α : Type} [DecidableEq α] (l : List α) :
    l.dedup.length = l.length ↔ l.Nodup := by
  constructor
  · intro h
    exact List.dedup_eq_self.mp ((List.dedup_sublist l).eq_of_length h)
  · intro h
    rw [List.dedup_eq_self.mpr h]

end Autorad

section AutoradImageDataset

open Autorad

/-- C10: constructing an `ImageDataset` with an explicit ID column whose
values repeat fails with the "IDs are not unique!" error (the image and mask
column checks that run first being satisfied), and a construction with an
explicit ID column that succeeds implies all the column's values are
distinct. -/
theorem C10_duplicate_ids (df : AFrame) (img msk c : String)
    (ids : List (Option String))
    (himg : check_if_in_df df img = Except.ok img)
    (hmsk : check_if_in_df df msk = Except.ok msk)
    (hc : lookupCol df c = some ids) :
    (¬ ids.Nodup →
      imageDatasetInit df img msk (some c) = Except.error "IDs are not unique!") ∧
    (∀ ds, imageDatasetInit df img msk (some c) = Except.ok ds → ids.Nodup) := by
  have hinit : ∀ r, set_ID_col_from_given df c = r →
      imageDatasetInit df img msk (some c) =
        r.map fun idc => ImageDataset.mk df img msk idc := by
    intro r hr
    simp only [imageDatasetInit, himg, hmsk, hr]
    cases r with
    | error e => rfl
    | ok v => rfl
  constructor
  · intro hdup
    have hne : ids.dedup.length ≠ ids.length :=
      fun h => hdup ((dedup_length_eq_iff_nodup ids).mp h)
    have hr : set_ID_col_from_given df c = Except.error "IDs are not unique!" := by
      rw [set_ID_col_from_given, hc]
      simp [hne]
    rw [hinit _ hr]
    rfl
  · intro ds hok
    by_contra hdup
    have hne : ids.dedup.length ≠ ids.length :=
      fun h => hdup ((dedup_length_eq_iff_nodup ids).mp h)
    have hr : set_ID_col_from_given df c = Except.error "IDs are not unique!" := by
      rw [set_ID_col_from_given, hc]
      simp [hne]
    rw [hinit _ hr] at hok
    exact Except.noConfusion hok

/-- A concrete dataframe with valid image and mask columns and a `patient`
column holding the same id on both rows. -/
def exImgDF : AFrame :=
  [("image_path", [some "img1.nii", some "img2.nii"]),
   ("segmentation_path", [some "seg1.nii", some "seg2.nii"]),
   ("patient", [some "p1", some "p1"])]

/-- C10 witness: on `exImgDF` the duplicate `patient` ids make construction
fail with the dedicated non-unique-IDs error. -/
theorem C10_duplicate_ids_witness :
    (check_if_in_df exImgDF "image_path" = Except.ok "image_path" ∧
      check_if_in_df exImgDF "segmentation_path" = Except.ok "segmentation_path" ∧
      lookupCol exImgDF "patient" = some [some "p1", some "p1"]) ∧
    ((¬ ([some "p1", some "p1"] : List (Option String)).Nodup →
        imageDatasetInit exImgDF "image_path" "segmentation_path" (some "patient") =
          Except.error "IDs are not unique!") ∧
      (∀ ds, imageDatasetInit exImgDF "image_path" "segmentation_path" (some "patient") =
          Except.ok ds → ([some "p1", some "p1"] : List (Option String)).Nodup)) :=
  ⟨⟨rfl, rfl, rfl⟩,
    C10_duplicate_ids exImgDF "image_path" "segmentation_path" "patient"
      [some "p1", some "p1"] rfl rfl rfl⟩

end AutoradImageDataset

namespace Autorad

/-- A split assignment as `splitting.split_full_dataset` produces it: the
held-out test ids and the per-fold (train ids, validation ids) pairs. -/
structure SplitAssignment where
  test : List Nat
  folds : List (List Nat × List Nat)

/-- The persisted split document: the test id list and the `train` JSON
object whose keys `fold_0 .. fold_{n-1}` are modelled by the fold index. -/
structure SplitDoc where
  test : List Nat
  train : List (Nat × (List Nat × List Nat))

/-- Key lookup in a JSON object read as an association list. -/
def assocLookup {α : Type} : List (Nat × α) → Nat → Option α
  | [], _ => none
  | (k, v) :: rest, i => if k = i then some v else assocLookup rest i

/-- The `train` object of the saved document: fold number `start + j` of
the remaining folds is stored under the key of that index, in fold order. -/
def enumFolds (start : Nat) :
    List (List Nat × List Nat) → List (Nat × (List Nat × List Nat))
  | [] => []
  | f :: fs => (start, f) :: enumFolds (start + 1) fs

/-- Modelled from the spec: `full_split` hands the assignment to
`io.save_json` (code outside `src/`), which persists the document
`{"test": [...], "train": {"fold_i": [train_ids, val_ids]}}` verbatim. -/
def saveSplits (a : SplitAssignment) : SplitDoc :=
  { test := a.test, train := enumFolds 0 a.folds }

/-- The partitions `load_splits_from_json` materializes over a table: the
per-partition lists of row ids, in table row order. -/
structure LoadedSplits where
  testIds : List Nat
  trainIds : List Nat
  foldIds : List (List Nat × List Nat)

/-- `FeatureDataset.load_splits_from_json` applied to a table of row ids:
test rows are those whose id is in the document's test list, train rows
the rest; for each `fold_i` key (i below the number of folds), the fold's
train and validation rows are selected by id membership. -/
def loadSplits (doc : SplitDoc) (tbl : List Nat) : LoadedSplits :=
  { testIds := tbl.filter fun x => x ∈ doc.test
    trainIds := tbl.filter fun x => x ∉ doc.test
    foldIds := (List.range doc.train.length).map fun i =>
      let p := (assocLookup doc.train i).getD ([], [])
      (tbl.filter fun x => x ∈ p.1, tbl.filter fun x => x ∈ p.2) }

theorem length_enumFolds (fs : List (List Nat × List Nat)) :
    ∀ start, (enumFolds start fs).length = fs.length := by
  induction fs with
  | nil => intro start; rfl
  | cons f fs ih => intro start; simp [enumFolds, ih]

theorem assocLookup_enumFolds (fs : List (List Nat × List Nat)) :
    ∀ start i, i < fs.length →
      assocLookup (enumFolds start fs) (start + i) =
        some (fs.getD i ([], [])) := by
  induction fs with
  | nil => intro start i h; exact absurd h (by simp)
  | cons f fs ih =>
    intro start i h
    cases i with
    | zero => simp [enumFolds, assocLookup]
    | succ j =>
      rw [enumFolds, assocLookup, if_neg (by omega : start ≠ start + (j + 1))]
      rw [show start + (j + 1) = (start + 1) + j by omega]
      rw [ih (start + 1) j (by simpa using h)]
      simp

theorem filter_mem_toFinset (tbl ids : List Nat) (h : ∀ x ∈ ids, x ∈ tbl) :
    (tbl.filter fun x => x ∈ ids).toFinset = ids.toFinset := by
  ext x
  simp only [List.mem_toFinset, List.mem_filter, decide_eq_true_eq]
  exact ⟨fun hx => hx.2, fun hx => ⟨h x hx, hx⟩⟩

end Autorad

section AutoradSplitDoc

open Autorad

/-- C4: saving a split assignment to the persisted document and loading it
back onto any table that contains the assignment's ids yields exactly the
assignment's id sets — the test id set and, for each fold index, the fold's
train and validation id sets.  The right-hand sides mention only the
assignment, not the table, so the result is independent of the table's row
order. -/
theorem C4_split_save_load_roundtrip (a : SplitAssignment) (tbl : List Nat)
    (htest : ∀ x ∈ a.test, x ∈ tbl)
    (hfold : ∀ f ∈ a.folds, (∀ x ∈ f.1, x ∈ tbl) ∧ ∀ x ∈ f.2, x ∈ tbl) :
    (loadSplits (saveSplits a) tbl).testIds.toFinset = a.test.toFinset ∧
    (loadSplits (saveSplits a) tbl).foldIds.length = a.folds.length ∧
    ∀ i, i < a.folds.length →
      ((loadSplits (saveSplits a) tbl).foldIds.getD i ([], [])).1.toFinset =
          (a.folds.getD i ([], [])).1.toFinset ∧
        ((loadSplits (saveSplits a) tbl).foldIds.getD i ([], [])).2.toFinset =
          (a.folds.getD i ([], [])).2.toFinset := by
  refine ⟨filter_mem_toFinset tbl a.test htest, ?_, ?_⟩
  · simp [loadSplits, saveSplits, length_enumFolds]
  · intro i hi
    have hn : (saveSplits a).train.length = a.folds.length := by
      simp [saveSplits, length_enumFolds]
    have hlook : assocLookup (saveSplits a).train i =
        some (a.folds.getD i ([], [])) := by
      have := assocLookup_enumFolds a.folds 0 i hi
      simpa [saveSplits] using this
    have hgd : (loadSplits (saveSplits a) tbl).foldIds.getD i ([], []) =
        (tbl.filter fun x => x ∈ (a.folds.getD i ([], [])).1,
          tbl.filter fun x => x ∈ (a.folds.getD i ([], [])).2) := by
      rw [loadSplits]
      rw [List.getD_eq_getElem?_getD, List.getElem?_map, List.getElem?_range
        (by rw [hn]; exact hi)]
      simp [hlook]
    have hmem : a.folds.getD i ([], []) ∈ a.folds := by
      rw [List.getD_eq_getElem _ _ hi]
      exact List.getElem_mem hi
    rw [hgd]
    exact ⟨filter_mem_toFinset tbl _ (hfold _ hmem).1,
      filter_mem_toFinset tbl _ (hfold _ hmem).2⟩

/-- C4 witness: a concrete two-fold assignment round-tripped over a
shuffled six-row table. -/
theorem C4_split_save_load_roundtrip_witness :
    ((∀ x ∈ [5, 6], x ∈ [3, 1, 5, 2, 4, 6]) ∧
      ∀ f ∈ [([1, 2], [3, 4]), ([3, 4], [1, 2])],
        (∀ x ∈ f.1, x ∈ [3, 1, 5, 2, 4, 6]) ∧
          ∀ x ∈ f.2, x ∈ [3, 1, 5, 2, 4, 6]) ∧
    ((loadSplits (saveSplits (SplitAssignment.mk [5, 6]
          [([1, 2], [3, 4]), ([3, 4], [1, 2])]))
        [3, 1, 5, 2, 4, 6]).testIds.toFinset = ([5, 6] : List Nat).toFinset ∧
      (loadSplits (saveSplits (SplitAssignment.mk [5, 6]
          [([1, 2], [3, 4]), ([3, 4], [1, 2])]))
        [3, 1, 5, 2, 4, 6]).foldIds.length =
        ([([1, 2], [3, 4]), ([3, 4], [1, 2])] :
          List (List Nat × List Nat)).length ∧
      ∀ i, i < ([([1, 2], [3, 4]), ([3, 4], [1, 2])] :
          List (List Nat × List Nat)).length →
        ((loadSplits (saveSplits (SplitAssignment.mk [5, 6]
              [([1, 2], [3, 4]), ([3, 4], [1, 2])]))
            [3, 1, 5, 2, 4, 6]).foldIds.getD i ([], [])).1.toFinset =
            (([([1, 2], [3, 4]), ([3, 4], [1, 2])] :
              List (List Nat × List Nat)).getD i ([], [])).1.toFinset ∧
          ((loadSplits (saveSplits (SplitAssignment.mk [5, 6]
              [([1, 2], [3, 4]), ([3, 4], [1, 2])]))
            [3, 1, 5, 2, 4, 6]).foldIds.getD i ([], [])).2.toFinset =
            (([([1, 2], [3, 4]), ([3, 4], [1, 2])] :
              List (List Nat × List Nat)).getD i ([], [])).2.toFinset) :=
  ⟨⟨by decide, by decide⟩,
    C4_split_save_load_roundtrip
      (SplitAssignment.mk [5, 6] [([1, 2], [3, 4]), ([3, 4], [1, 2])])
      [3, 1, 5, 2, 4, 6] (by decide) (by decide)⟩

end AutoradSplitDoc

namespace AutoradTrainer

/-- The outcome of one `model.fit` call inside the objective's fold loop:
success, a raised `ValueError` (the class the `except` clause catches), or
a raised exception of any other class. -/
inductive FitOutcome
  | ok
  | valueError
  | otherError
deriving DecidableEq, Repr

/-- One (train, validation) fold as the objective consumes it: what `fit`
does there and the validation AUC scored when the fit succeeds. -/
structure FoldEval where
  fit : FitOutcome
  auc : ℚ
deriving DecidableEq, Repr

/-- One optuna trial: the sampled parameter configuration (abstracted to a
tag) and the per-fold evaluation data of the sampled model. -/
structure STrial where
  params : Nat
  folds : List FoldEval
deriving DecidableEq, Repr

/-- The fold loop of `Trainer._objective`: `fit` each fold's model; a
`ValueError` is caught and the objective returns NaN (`none`), any other
exception propagates out of the objective; otherwise the fold AUCs are
accumulated and the mean is returned. -/
def objectiveGo : List FoldEval → List ℚ → Except Unit (Option ℚ)
  | [], aucs => Except.ok (some (aucs.sum / aucs.length))
  | fe :: rest, aucs =>
    match fe.fit with
    | FitOutcome.ok => objectiveGo rest (aucs ++ [fe.auc])
    | FitOutcome.valueError => Except.ok none
    | FitOutcome.otherError => Except.error ()

/-- `Trainer._objective` for one trial. -/
def objective (t : STrial) : Except Unit (Option ℚ) :=
  objectiveGo t.folds []

/-- `study.optimize` with the default empty `catch` tuple: trials run in
order; a NaN-valued objective marks the trial failed (`none`) and the study
continues; an exception raised by the objective propagates and aborts the
whole search.  The history records (params, value) per completed trial. -/
def runStudy : List STrial → Except Unit (List (Nat × Option ℚ))
  | [] => Except.ok []
  | t :: ts =>
    match objective t with
    | Except.error e => Except.error e
    | Except.ok v => (runStudy ts).map fun hist => (t.params, v) :: hist

/-- First-encountered maximum of a scored list (optuna's best among
completed trials; earlier trials win ties). -/
def argmaxGo : List (Nat × ℚ) → Option (Nat × ℚ)
  | [] => none
  | x :: xs =>
    match argmaxGo xs with
    | none => some x
    | some y => if x.2 < y.2 then some y else some x

/-- `study.best_trial.params`: failed (NaN / `none`) trials are excluded
from selection; among the rest the best value wins. -/
def bestParams (hist : List (Nat × Option ℚ)) : Option Nat :=
  (argmaxGo (hist.filterMap fun pv => pv.2.map fun s => (pv.1, s))).map
    Prod.fst

/-- The value the objective yields for a trial when it does not raise. -/
def objValue (t : STrial) : Option ℚ :=
  match objective t with
  | Except.ok v => v
  | Except.error _ => none

theorem objectiveGo_ok_of_no_otherError (folds : List FoldEval) :
    ∀ aucs, (∀ fe ∈ folds, fe.fit ≠ FitOutcome.otherError) →
      ∃ v, objectiveGo folds aucs = Except.ok v := by
  induction folds with
  | nil => intro aucs _; exact ⟨_, rfl⟩
  | cons fe rest ih =>
    intro aucs h
    cases hf : fe.fit with
    | ok =>
      rcases ih (aucs ++ [fe.auc]) (fun g hg => h g (List.mem_cons_of_mem _ hg))
        with ⟨v, hv⟩
      exact ⟨v, by rw [objectiveGo, hf]; exact hv⟩
    | valueError => exact ⟨none, by rw [objectiveGo, hf]⟩
    | otherError => exact absurd hf (h fe (List.mem_cons_self fe rest))

theorem objectiveGo_some_all_ok (folds : List FoldEval) :
    ∀ aucs s, objectiveGo folds aucs = Except.ok (some s) →
      ∀ fe ∈ folds, fe.fit = FitOutcome.ok := by
  induction folds with
  | nil => intro aucs s _ fe hfe; exact absurd hfe (by simp)
  | cons fe rest ih =>
    intro aucs s hok g hg
    cases hf : fe.fit with
    | ok =>
      rw [objectiveGo, hf] at hok
      rcases List.mem_cons.mp hg with rfl | hg'
      · exact hf
      · exact ih (aucs ++ [fe.auc]) s hok g hg'
    | valueError =>
      rw [objectiveGo, hf] at hok
      exact absurd (Except.ok.inj hok) (by simp)
    | otherError =>
      rw [objectiveGo, hf] at hok
      exact Except.noConfusion hok

theorem objectiveGo_all_ok_some (folds : List FoldEval) :
    ∀ aucs, (∀ fe ∈ folds, fe.fit = FitOutcome.ok) →
      ∃ s, objectiveGo folds aucs = Except.ok (some s) := by
  induction folds with
  | nil => intro aucs _; exact ⟨_, rfl⟩
  | cons fe rest ih =>
    intro aucs h
    have hf : fe.fit = FitOutcome.ok := h fe (List.mem_cons_self fe rest)
    rcases ih (aucs ++ [fe.auc]) (fun g hg => h g (List.mem_cons_of_mem _ hg))
      with ⟨s, hs⟩
    exact ⟨s, by rw [objectiveGo, hf]; exact hs⟩

theorem objectiveGo_valueError_none (folds : List FoldEval) :
    ∀ aucs, (∀ fe ∈ folds, fe.fit ≠ FitOutcome.otherError) →
      (∃ fe ∈ folds, fe.fit = FitOutcome.valueError) →
      objectiveGo folds aucs = Except.ok none := by
  induction folds with
  | nil => intro aucs _ h; simp at h
  | cons fe rest ih =>
    intro aucs hno ⟨g, hg, hgv⟩
    cases hf : fe.fit with
    | ok =>
      rw [objectiveGo, hf]
      rcases List.mem_cons.mp hg with rfl | hg'
      · exact absurd hf (by rw [hgv]; simp)
      · exact ih (aucs ++ [fe.auc])
          (fun x hx => hno x (List.mem_cons_of_mem _ hx)) ⟨g, hg', hgv⟩
    | valueError => rw [objectiveGo, hf]
    | otherError => exact absurd hf (hno fe (List.mem_cons_self fe rest))

theorem runStudy_ok (ts : List STrial)
    (hv : ∀ t ∈ ts, ∀ fe ∈ t.folds, fe.fit ≠ FitOutcome.otherError) :
    runStudy ts = Except.ok (ts.map fun t => (t.params, objValue t)) := by
  induction ts with
  | nil => rfl
  | cons t ts ih =>
    rcases objectiveGo_ok_of_no_otherError t.folds []
      (hv t (List.mem_cons_self t ts)) with ⟨v, hvv⟩
    rw [runStudy]
    have hobj : objective t = Except.ok v := hvv
    rw [hobj, ih fun s hs => hv s (List.mem_cons_of_mem _ hs)]
    have : objValue t = v := by rw [objValue, hobj]
    simp [this, Except.map]

theorem argmaxGo_mem (l : List (Nat × ℚ)) :
    ∀ y, argmaxGo l = some y → y ∈ l := by
  induction l with
  | nil => intro y h; exact Option.noConfusion h
  | cons x xs ih =>
    intro y h
    rw [argmaxGo] at h
    cases hx : argmaxGo xs with
    | none => rw [hx] at h; exact List.mem_cons.mpr (Or.inl (Option.some.inj h).symm)
    | some z =>
      rw [hx] at h
      dsimp only at h
      by_cases hlt : x.2 < z.2
      · rw [if_pos hlt] at h
        exact List.mem_cons_of_mem _ (ih y (hx.trans (congrArg some (Option.some.inj h))))
      · rw [if_neg hlt] at h
        exact List.mem_cons.mpr (Or.inl (Option.some.inj h).symm)

theorem argmaxGo_ne_none (l : List (Nat × ℚ)) (hl : l ≠ []) :
    ∃ y, argmaxGo l = some y := by
  cases l with
  | nil => exact absurd rfl hl
  | cons x xs =>
    rw [argmaxGo]
    cases argmaxGo xs with
    | none => exact ⟨x, rfl⟩
    | some z =>
      by_cases hlt : x.2 < z.2
      · exact ⟨z, by dsimp only; rw [if_pos hlt]⟩
      · exact ⟨x, by dsimp only; rw [if_neg hlt]⟩

end AutoradTrainer

section AutoradTrialSearch

open AutoradTrainer

/-- C5 (counterexample): a trial whose model fit raises an exception other
than `ValueError` (only `ValueError` is caught by the objective) aborts the
whole search: with a succeeding first trial, a second trial raising a
non-ValueError and a third succeeding trial, the study run errors out
instead of continuing through its remaining trials and returning another
trial's parameters. -/
theorem C5_abort_counterexample :
    runStudy [STrial.mk 0 [FoldEval.mk FitOutcome.ok 1],
      STrial.mk 1 [FoldEval.mk FitOutcome.otherError 0],
      STrial.mk 2 [FoldEval.mk FitOutcome.ok 1]] = Except.error () := rfl

/-- C5 (amended): when every fit failure in the search is a `ValueError`
(the exception class the objective catches — e.g. an invalid hyperparameter
combination rejected by sklearn), the search completes through all its
trials; every trial with a failing fit is retained in the history with an
undefined (NaN) score, such trials are excluded from best-trial selection,
and — provided some trial fits successfully — the returned best parameters
belong to a successfully scored trial.  A fit raising any other exception
class propagates and aborts the search (`C5_abort_counterexample`). -/
theorem C5_trial_failure_tolerated (ts : List STrial)
    (hv : ∀ t ∈ ts, ∀ fe ∈ t.folds, fe.fit ≠ FitOutcome.otherError)
    (hs : ∃ t ∈ ts, ∀ fe ∈ t.folds, fe.fit = FitOutcome.ok) :
    ∃ hist, runStudy ts = Except.ok hist ∧
      (∀ t ∈ ts, (∃ fe ∈ t.folds, fe.fit = FitOutcome.valueError) →
        (t.params, (none : Option ℚ)) ∈ hist) ∧
      ∃ p, bestParams hist = some p ∧
        ∃ t ∈ ts, t.params = p ∧ ∀ fe ∈ t.folds, fe.fit = FitOutcome.ok := by
  refine ⟨ts.map fun t => (t.params, objValue t), runStudy_ok ts hv, ?_, ?_⟩
  · intro t ht hval
    have hnone : objValue t = none := by
      rw [objValue, objective,
        objectiveGo_valueError_none t.folds [] (hv t ht) hval]
    exact List.mem_map.mpr ⟨t, ht, by rw [hnone]⟩
  · rcases hs with ⟨t0, ht0, hok⟩
    rcases objectiveGo_all_ok_some t0.folds [] hok with ⟨s0, hs0⟩
    have hov : objValue t0 = some s0 := by rw [objValue, objective, hs0]
    have hmem0 : (t0.params, s0) ∈
        (ts.map fun t => (t.params, objValue t)).filterMap
          fun pv => pv.2.map fun s => (pv.1, s) := by
      refine List.mem_filterMap.mpr
        ⟨(t0.params, objValue t0), List.mem_map.mpr ⟨t0, ht0, rfl⟩, ?_⟩
      rw [hov]; rfl
    rcases argmaxGo_ne_none _ (List.ne_nil_of_mem hmem0) with ⟨y, hy⟩
    refine ⟨y.1, by rw [bestParams, hy]; rfl, ?_⟩
    have hymem := argmaxGo_mem _ y hy
    rcases List.mem_filterMap.mp hymem with ⟨pv, hpv, hf⟩
    rcases List.mem_map.mp hpv with ⟨t1, ht1, hteq⟩
    cases hv2 : pv.2 with
    | none => rw [hv2] at hf; exact Option.noConfusion hf
    | some s1 =>
      rw [hv2] at hf
      have hy_eq : (pv.1, s1) = y := Option.some.inj hf
      have hparams : t1.params = pv.1 := congrArg Prod.fst hteq
      have hov1 : objValue t1 = some s1 := by
        have hsnd : objValue t1 = pv.2 := congrArg Prod.snd hteq
        rw [hsnd, hv2]
      refine ⟨t1, ht1, by rw [hparams, ← hy_eq], ?_⟩
      rw [objValue] at hov1
      cases hobj : objective t1 with
      | error e => rw [hobj] at hov1; exact Option.noConfusion hov1
      | ok v =>
        rw [hobj] at hov1
        dsimp only at hov1
        refine objectiveGo_some_all_ok t1.folds [] s1 ?_
        rw [← objective, hobj, hov1]

/-- C5 witness: a two-trial search where the first trial's fit raises a
`ValueError` and the second succeeds. -/
theorem C5_trial_failure_tolerated_witness :
    ((∀ t ∈ [STrial.mk 0 [FoldEval.mk FitOutcome.valueError 0],
        STrial.mk 1 [FoldEval.mk FitOutcome.ok 1]],
      ∀ fe ∈ t.folds, fe.fit ≠ FitOutcome.otherError) ∧
      ∃ t ∈ [STrial.mk 0 [FoldEval.mk FitOutcome.valueError 0],
        STrial.mk 1 [FoldEval.mk FitOutcome.ok 1]],
        ∀ fe ∈ t.folds, fe.fit = FitOutcome.ok) ∧
    ∃ hist, runStudy [STrial.mk 0 [FoldEval.mk FitOutcome.valueError 0],
        STrial.mk 1 [FoldEval.mk FitOutcome.ok 1]] = Except.ok hist ∧
      (∀ t ∈ [STrial.mk 0 [FoldEval.mk FitOutcome.valueError 0],
          STrial.mk 1 [FoldEval.mk FitOutcome.ok 1]],
        (∃ fe ∈ t.folds, fe.fit = FitOutcome.valueError) →
          (t.params, (none : Option ℚ)) ∈ hist) ∧
      ∃ p, bestParams hist = some p ∧
        ∃ t ∈ [STrial.mk 0 [FoldEval.mk FitOutcome.valueError 0],
          STrial.mk 1 [FoldEval.mk FitOutcome.ok 1]],
          t.params = p ∧ ∀ fe ∈ t.folds, fe.fit = FitOutcome.ok :=
  ⟨⟨by decide, by decide⟩,
    C5_trial_failure_tolerated
      [STrial.mk 0 [FoldEval.mk FitOutcome.valueError 0],
        STrial.mk 1 [FoldEval.mk FitOutcome.ok 1]]
      (by decide) (by decide)⟩

end AutoradTrialSearch

namespace Radiomics

/-- A scalar hyperparameter value as the JSON grids hold them: a number, a
string, a boolean, or Python's `None`. -/
inductive PVal
  | num (q : ℚ)
  | str (s : String)
  | bool (b : Bool)
  | null
deriving DecidableEq, Repr

/-- A parameter grid: parameter name to candidate values. -/
abbrev Grid : Type := List (String × List PVal)

/-- `HyperparamOptimizer.get_grid_RandomForest`'s grid. -/
def get_grid_RandomForest : Grid :=
  [("n_estimators", [PVal.num 200, PVal.num 600, PVal.num 1000]),
   ("max_features", [PVal.str "auto", PVal.str "sqrt"]),
   ("max_depth", [PVal.num 10, PVal.num 50, PVal.null]),
   ("min_samples_split", [PVal.num 2, PVal.num 5, PVal.num 10]),
   ("min_samples_leaf", [PVal.num 1, PVal.num 4]),
   ("bootstrap", [PVal.bool true, PVal.bool false])]

/-- `HyperparamOptimizer.get_grid_XGBoost`'s grid. -/
def get_grid_XGBoost : Grid :=
  [("learning_rate", [PVal.num (5/100), PVal.num (10/100), PVal.num (20/100),
      PVal.num (30/100)]),
   ("max_depth", [PVal.num 2, PVal.num 4, PVal.num 8, PVal.num 12, PVal.num 15]),
   ("min_child_weight", [PVal.num 1, PVal.num 3, PVal.num 7]),
   ("gamma", [PVal.num 0, PVal.num (1/10), PVal.num (3/10)]),
   ("colsample_bytree", [PVal.num (3/10), PVal.num (5/10), PVal.num (7/10)])]

/-- `HyperparamOptimizer.get_grid_LogReg`'s grid. -/
def get_grid_LogReg : Grid :=
  [("C", [PVal.num (1/1000), PVal.num (1/100), PVal.num (1/10), PVal.num 1,
      PVal.num 10, PVal.num 100, PVal.num 1000]),
   ("penalty", [PVal.str "l1", PVal.str "l2", PVal.str "elasticnet",
      PVal.str "none"])]

/-- `HyperparamOptimizer.get_grid_SVM`'s grid. -/
def get_grid_SVM : Grid :=
  [("kernel", [PVal.str "rbf"]),
   ("C", [PVal.num (1/1000), PVal.num (1/100), PVal.num (1/10), PVal.num 1,
      PVal.num 10]),
   ("gamma", [PVal.num (1/1000), PVal.num (1/100), PVal.num (1/10), PVal.num 1])]

/-- The model-name dispatch of `get_param_grid`: the static grid of a
supported model family, `none` for an unsupported one. -/
def namedGrid (n : String) : Option Grid :=
  if n = "Random Forest" then some get_grid_RandomForest
  else if n = "XGBoost" then some get_grid_XGBoost
  else if n = "Logistic Regression" then some get_grid_LogReg
  else if n = "SVM" then some get_grid_SVM
  else none

/-- A classifier wrapper as the optimizer sees it: its name and the current
parameter assignment (`set_params` replaces it). -/
structure RModel where
  classifier_name : String
  params : List (String × PVal)
deriving DecidableEq, Repr

/-- A cached parameter file in `param_dir`: a well-formed record, or bytes
`load_json` fails to parse. -/
inductive CacheFile
  | good (params : List (String × PVal))
  | corrupt
deriving DecidableEq, Repr

/-- The exception classes the optimizer's control flow distinguishes. -/
inductive RErr
  | valueError (msg : String)
  | fileNotFound (msg : String)
  | jsonDecodeError
deriving DecidableEq, Repr

/-- Cache-file lookup by file name. -/
def cacheLookup : List (String × CacheFile) → String → Option CacheFile
  | [], _ => none
  | (k, v) :: rest, c => if k = c then some v else cacheLookup rest c

/-- Writing a cache file: the new content replaces any prior file of the
same name (last writer wins). -/
def cacheInsert (cache : List (String × CacheFile)) (k : String)
    (v : CacheFile) : List (String × CacheFile) :=
  (k, v) :: cache.filter fun p => p.1 ≠ k

/-- `HyperparamOptimizer` state: the wrapped model, the selected parameter
grid (`None` until `get_param_grid` sets it), and the contents of the
`param_dir` cache directory. -/
structure OptimizerState where
  model : RModel
  param_grid : Option Grid
  cache : List (String × CacheFile)
deriving DecidableEq, Repr

/-- `save_params`: write the parameter record to
`param_dir / (classifier_name + ".json")`, overwriting any prior record. -/
def save_params (s : OptimizerState) (params : List (String × PVal)) :
    OptimizerState :=
  { s with cache := (cacheInsert s.cache (s.model.classifier_name ++ ".json")
      (CacheFile.good params)) }

/-- `load_params`: read the per-model cache file; raise `FileNotFoundError`
when it is absent, a JSON decode error when it is corrupt, and otherwise
`set_params` the model from the record. -/
def load_params (s : OptimizerState) : Except RErr OptimizerState :=
  match cacheLookup s.cache (s.model.classifier_name ++ ".json") with
  | none => Except.error (RErr.fileNotFound
      "No param file found. Run `tune_hyperparameters` first.")
  | some CacheFile.corrupt => Except.error RErr.jsonDecodeError
  | some (CacheFile.good ps) =>
    Except.ok { s with model := { s.model with params := ps } }

/-- `get_param_grid`: dispatch on the model name.  For a supported family
the grid is stored on the state and `self` returned; for an unsupported
family the source executes `return ValueError(...)` — it RETURNS the
exception object as an ordinary value instead of raising it.  The second
component is that returned value (`none` = returned `self`); no branch
raises, and every caller discards the returned value. -/
def get_param_grid (s : OptimizerState) : OptimizerState × Option RErr :=
  match namedGrid s.model.classifier_name with
  | some g => ({ s with param_grid := some g }, none)
  | none => (s, some (RErr.valueError ("Hyperparameter tuning for " ++
      s.model.classifier_name ++ " not implemented!")))

/-- `update_model_params_grid_search`: raise when no grid was selected;
otherwise run the (external sklearn) grid search — abstracted as the
`search` oracle mapping the grid to the best parameters — then `set_params`
the model and `save_params` the result. -/
def update_model_params_grid_search
    (search : Grid → List (String × PVal)) (s : OptimizerState) :
    Except RErr OptimizerState :=
  match s.param_grid with
  | none => Except.error (RErr.valueError "First select param grid!")
  | some g =>
    let optimal := search g
    Except.ok (save_params { s with model := { s.model with params := optimal } }
      optimal)

/-- `tune_hyperparameters`: run `get_param_grid` (its return value is
discarded) then the grid search, swallowing every exception
(`except Exception: pass`). -/
def tune_hyperparameters (search : Grid → List (String × PVal))
    (s : OptimizerState) : OptimizerState :=
  let s1 := (get_param_grid s).1
  match update_model_params_grid_search search s1 with
  | Except.ok s2 => s2
  | Except.error _ => s1

/-- `load_or_tune_hyperparameters`: try `load_params`; on any exception
(missing file, corrupt record) fall back to tuning; return the model. -/
def load_or_tune_hyperparameters (search : Grid → List (String × PVal))
    (s : OptimizerState) : OptimizerState × RModel :=
  match load_params s with
  | Except.ok s1 => (s1, s1.model)
  | Except.error _ =>
    let s2 := tune_hyperparameters search s
    (s2, s2.model)

theorem cacheLookup_insert (cache : List (String × CacheFile)) (k : String)
    (v : CacheFile) : cacheLookup (cacheInsert cache k v) k = some v := by
  simp [cacheInsert, cacheLookup]

/-- An optimizer over a model family the grid dispatch does not know. -/
def exUnsupportedState : OptimizerState :=
  OptimizerState.mk (RModel.mk "AdaBoost" []) none []

/-- An optimizer over the supported SVM family with an empty cache dir. -/
def exSVMState : OptimizerState :=
  OptimizerState.mk (RModel.mk "SVM" []) none []

end Radiomics

section RadiomicsOptimizer

open Radiomics

/-- C6: with a supported model family, when the per-model cache record is
missing or corrupted, `load_or_tune_hyperparameters` falls back to the
search strategy (never surfacing the load failure: the function is total),
sets the model's parameters to the search result and caches that result;
and any subsequent invocation on the resulting state returns the identical
parameters for EVERY search oracle — i.e. without consulting the search
strategy again. -/
theorem C6_load_or_tune_fallback_and_cache (s : OptimizerState)
    (search : Grid → List (String × PVal)) (g : Grid)
    (hg : namedGrid s.model.classifier_name = some g)
    (hmiss : cacheLookup s.cache (s.model.classifier_name ++ ".json") = none ∨
      cacheLookup s.cache (s.model.classifier_name ++ ".json") =
        some CacheFile.corrupt) :
    (load_or_tune_hyperparameters search s).2.params = search g ∧
    cacheLookup (load_or_tune_hyperparameters search s).1.cache
        (s.model.classifier_name ++ ".json") =
      some (CacheFile.good (search g)) ∧
    ∀ search2 : Grid → List (String × PVal),
      (load_or_tune_hyperparameters search2
          (load_or_tune_hyperparameters search s).1).2.params = search g := by
  have hload : ∃ e, load_params s = Except.error e := by
    rcases hmiss with h | h
    · exact ⟨_, by rw [load_params, h]⟩
    · exact ⟨_, by rw [load_params, h]⟩
  rcases hload with ⟨e, he⟩
  have htune : tune_hyperparameters search s =
      save_params
        { s with param_grid := some g, model := { s.model with params := search g } }
        (search g) := by
    rw [tune_hyperparameters, get_param_grid, hg]
    rfl
  have hrun : load_or_tune_hyperparameters search s =
      (tune_hyperparameters search s, (tune_hyperparameters search s).model) := by
    rw [load_or_tune_hyperparameters, he]
  rw [hrun, htune]
  refine ⟨rfl, ?_, ?_⟩
  · exact cacheLookup_insert _ _ _
  · intro search2
    rw [load_or_tune_hyperparameters, load_params]
    rw [show (save_params
        { s with param_grid := some g, model := { s.model with params := search g } }
        (search g)).model.classifier_name = s.model.classifier_name from rfl]
    rw [show (save_params
        { s with param_grid := some g, model := { s.model with params := search g } }
        (search g)).cache = (cacheInsert s.cache (s.model.classifier_name ++ ".json")
          (CacheFile.good (search g))) from rfl]
    rw [cacheLookup_insert]

/-- C6 witness: a missing SVM cache record triggers the search fallback;
the second invocation replays the cached result. -/
theorem C6_load_or_tune_fallback_and_cache_witness :
    (namedGrid (RModel.mk "SVM" []).classifier_name = some get_grid_SVM ∧
      (cacheLookup exSVMState.cache
          (exSVMState.model.classifier_name ++ ".json") = none ∨
        cacheLookup exSVMState.cache
          (exSVMState.model.classifier_name ++ ".json") =
            some CacheFile.corrupt)) ∧
    ((load_or_tune_hyperparameters (fun _ => [("kernel", PVal.str "rbf")])
        exSVMState).2.params = (fun _ : Grid => [("kernel", PVal.str "rbf")])
          get_grid_SVM ∧
      cacheLookup (load_or_tune_hyperparameters
          (fun _ => [("kernel", PVal.str "rbf")]) exSVMState).1.cache
          (exSVMState.model.classifier_name ++ ".json") =
        some (CacheFile.good ((fun _ : Grid => [("kernel", PVal.str "rbf")])
          get_grid_SVM)) ∧
      ∀ search2 : Grid → List (String × PVal),
        (load_or_tune_hyperparameters search2
            (load_or_tune_hyperparameters
              (fun _ => [("kernel", PVal.str "rbf")]) exSVMState).1).2.params =
          (fun _ : Grid => [("kernel", PVal.str "rbf")]) get_grid_SVM) :=
  ⟨⟨rfl, Or.inl rfl⟩,
    C6_load_or_tune_fallback_and_cache exSVMState
      (fun _ => [("kernel", PVal.str "rbf")]) get_grid_SVM rfl (Or.inl rfl)⟩

/-- C7: evaluated at the unsupported model family "AdaBoost", the source's
`get_param_grid` RETURNS the `ValueError` object instead of raising it (the
returned value, which every caller discards, is the exception; the state is
returned unchanged, no grid selected), and `tune_hyperparameters` then
swallows the subsequent "First select param grid!" error, completing with
no error raised and no parameters tuned — the dedicated
no-parameter-grid-defined failure the spec requires never surfaces.  For
each of the four supported families a non-empty grid is selected with no
error returned. -/
theorem C7_unsupported_family_returns_not_raises :
    (get_param_grid exUnsupportedState).2 =
      some (RErr.valueError
        "Hyperparameter tuning for AdaBoost not implemented!") ∧
    (get_param_grid exUnsupportedState).1 = exUnsupportedState ∧
    tune_hyperparameters (fun _ => []) exUnsupportedState =
      exUnsupportedState ∧
    (load_or_tune_hyperparameters (fun _ => []) exUnsupportedState).2 =
      exUnsupportedState.model ∧
    namedGrid "Random Forest" = some get_grid_RandomForest ∧
    get_grid_RandomForest ≠ [] ∧
    namedGrid "XGBoost" = some get_grid_XGBoost ∧
    get_grid_XGBoost ≠ [] ∧
    namedGrid "Logistic Regression" = some get_grid_LogReg ∧
    get_grid_LogReg ≠ [] ∧
    namedGrid "SVM" = some get_grid_SVM ∧
    get_grid_SVM ≠ [] :=
  ⟨rfl, rfl, rfl, rfl, rfl, List.cons_ne_nil _ _, rfl, List.cons_ne_nil _ _,
    rfl, List.cons_ne_nil _ _, rfl, List.cons_ne_nil _ _⟩

end RadiomicsOptimizer

namespace Radiomics

/-- `result_df.loc[indices, col] = v`: write the constant `v` into the
column at the given index labels. -/
def locConst {α : Type} (c : Nat → α) (idxs : List Nat) (v : α) : Nat → α :=
  fun i => if i ∈ idxs then v else c i

/-- `result_df.loc[indices, col] = series`: write per-row values into the
column at the given index labels. -/
def locFn {α : Type} (c : Nat → α) (idxs : List Nat) (f : Nat → α) :
    Nat → α :=
  fun i => if i ∈ idxs then f i else c i

/-- The `for i, (train_idx, val_idx) in enumerate(cv_splits)` loop of
`init_result_df`: fold number `k + j` of the remaining folds writes its
index into the `cv_split` column at the fold's validation row labels. -/
def writeCvFrom (k : Nat) : List (List Nat) → (Nat → Int) → (Nat → Int)
  | [], c => c
  | v :: fs, c => writeCvFrom (k + 1) fs (locConst c v (Int.ofNat k))

/-- The per-fold prediction loop of `train_cross_validation`: fold `k + j`
writes its predictions (`pred k`) at the fold's validation row labels. -/
def writePredFrom {α : Type} (k : Nat) (pred : Nat → Nat → α) :
    List (List Nat) → (Nat → α) → (Nat → α)
  | [], c => c
  | v :: fs, c => writePredFrom (k + 1) pred fs (locFn c v (pred k))

/-- What the trainer reads from the dataset to build the result table:
`df.index` in row order, `X_test.index`, and per fold the validation rows'
index labels (`X_train.index[val_idx]`). -/
structure TrainerInput where
  dfIdx : List Nat
  testIdx : List Nat
  foldVal : List (List Nat)

/-- The result table: row index labels in order, the `test` flag column and
the `cv_split` column (the metadata columns are carried unchanged and not
modelled). -/
structure ResultDF where
  rows : List Nat
  testCol : Nat → Int
  cvCol : Nat → Int

/-- `Trainer.init_result_df`: copy the metadata rows of `df` (so the row
order is `df`'s), set `test` to 0 then 1 at the test rows, set `cv_split`
to -1 then the fold index at each fold's validation rows. -/
def init_result_df (d : TrainerInput) : ResultDF :=
  { rows := d.dfIdx
    testCol := locConst (fun _ => 0) d.testIdx 1
    cvCol := writeCvFrom 0 d.foldVal (fun _ => -1) }

/-- One model's `<name>_pred` / `<name>_pred_proba` column after
`train_cross_validation`: initialized to the sentinel -1, then per fold the
fold predictions are written at the fold's validation rows, and finally the
test predictions at the test rows. -/
def predCol (d : TrainerInput) (foldPred : Nat → Nat → ℚ)
    (testPred : Nat → ℚ) : Nat → ℚ :=
  locFn (writePredFrom 0 foldPred d.foldVal fun _ => -1) d.testIdx testPred

/-- The artifacts of a full `train_cross_validation` run for one model,
persisted by `save_results` in the result table's row order. -/
structure RunResult where
  base : ResultDF
  pred : Nat → ℚ
  proba : Nat → ℚ

/-- `Trainer.train_cross_validation` for one model followed by
`save_results`: build the result table, then fill the model's prediction
and probability columns fold by fold and for the test partition. -/
def train_cross_validation (d : TrainerInput) (foldPred foldProba : Nat → Nat → ℚ)
    (testPred testProba : Nat → ℚ) : RunResult :=
  { base := init_result_df d
    pred := predCol d foldPred testPred
    proba := predCol d foldProba testProba }

theorem writeCvFrom_not_mem (fs : List (List Nat)) :
    ∀ k c i, (∀ v ∈ fs, i ∉ v) → writeCvFrom k fs c i = c i := by
  induction fs with
  | nil => intro k c i _; rfl
  | cons v fs ih =>
    intro k c i h
    rw [writeCvFrom, ih (k + 1) _ i (fun w hw => h w (List.mem_cons_of_mem _ hw))]
    rw [locConst, if_neg (h v (List.mem_cons_self v fs))]

theorem writeCvFrom_mem (fs : List (List Nat)) :
    ∀ k c i j, j < fs.length → i ∈ fs.getD j [] →
      fs.Pairwise (fun a b => ∀ x ∈ a, x ∉ b) →
      writeCvFrom k fs c i = Int.ofNat (k + j) := by
  induction fs with
  | nil => intro k c i j hj _ _; exact absurd hj (by simp)
  | cons v fs ih =>
    intro k c i j hj hi hdisj
    rcases List.pairwise_cons.mp hdisj with ⟨hhead, htail⟩
    cases j with
    | zero =>
      rw [writeCvFrom, writeCvFrom_not_mem fs (k + 1) _ i
        (fun w hw => hhead w hw i (by simpa using hi))]
      rw [locConst, if_pos (by simpa using hi), Nat.add_zero]
    | succ j' =>
      rw [writeCvFrom, ih (k + 1) _ i j' (by simpa using hj)
        (by simpa using hi) htail]
      congr 1
      omega

theorem writePredFrom_not_mem {α : Type} (pred : Nat → Nat → α)
    (fs : List (List Nat)) :
    ∀ k c i, (∀ v ∈ fs, i ∉ v) → writePredFrom k pred fs c i = c i := by
  induction fs with
  | nil => intro k c i _; rfl
  | cons v fs ih =>
    intro k c i h
    rw [writePredFrom, ih (k + 1) _ i (fun w hw => h w (List.mem_cons_of_mem _ hw))]
    rw [locFn, if_neg (h v (List.mem_cons_self v fs))]

theorem writePredFrom_mem {α : Type} (pred : Nat → Nat → α)
    (fs : List (List Nat)) :
    ∀ k c i j, j < fs.length → i ∈ fs.getD j [] →
      fs.Pairwise (fun a b => ∀ x ∈ a, x ∉ b) →
      writePredFrom k pred fs c i = pred (k + j) i := by
  induction fs with
  | nil => intro k c i j hj _ _; exact absurd hj (by simp)
  | cons v fs ih =>
    intro k c i j hj hi hdisj
    rcases List.pairwise_cons.mp hdisj with ⟨hhead, htail⟩
    cases j with
    | zero =>
      rw [writePredFrom, writePredFrom_not_mem pred fs (k + 1) _ i
        (fun w hw => hhead w hw i (by simpa using hi))]
      rw [locFn, if_pos (by simpa using hi), Nat.add_zero]
    | succ j' =>
      rw [writePredFrom, ih (k + 1) _ i j' (by simpa using hj)
        (by simpa using hi) htail]
      congr 1
      omega

theorem predCol_sentinel (d : TrainerInput) (fp : Nat → Nat → ℚ)
    (tp : Nat → ℚ)
    (hdisj : d.foldVal.Pairwise fun a b => ∀ x ∈ a, x ∉ b)
    (hfp : ∀ k i, fp k i ≠ -1) (htp : ∀ i, tp i ≠ -1) (i : Nat) :
    predCol d fp tp i = -1 ↔
      i ∉ d.testIdx ∧ ∀ v ∈ d.foldVal, i ∉ v := by
  by_cases hit : i ∈ d.testIdx
  · rw [predCol, locFn, if_pos hit]
    exact ⟨fun h => absurd h (htp i), fun h => absurd hit h.1⟩
  · rw [predCol, locFn, if_neg hit]
    by_cases hin : ∀ v ∈ d.foldVal, i ∉ v
    · rw [writePredFrom_not_mem fp d.foldVal 0 _ i hin]
      exact ⟨fun _ => ⟨hit, hin⟩, fun _ => rfl⟩
    · push_neg at hin
      rcases hin with ⟨v, hv, hiv⟩
      rcases List.getElem_of_mem hv with ⟨j, hj, hjv⟩
      have hgd : i ∈ d.foldVal.getD j [] := by
        rw [List.getD_eq_getElem _ _ hj, hjv]; exact hiv
      rw [writePredFrom_mem fp d.foldVal 0 _ i j hj hgd hdisj]
      refine ⟨fun h => absurd h (hfp _ i), fun h => absurd hiv (h.2 v hv)⟩

end Radiomics

section RadiomicsTrainer

open Radiomics

/-- C8: in the result table of a run (per-fold validation index sets
pairwise disjoint and disjoint from the test rows, prediction and
probability values never equal to the sentinel -1, as holds for 0/1 labels
and [0,1] probabilities): the `test` column is 1 exactly on the test rows
and 0 elsewhere; `cv_split` equals the fold index on every row of that
fold's validation set and -1 on every test row; a model's prediction and
probability cells equal the sentinel -1 exactly on the cells never written
by a fold or test prediction; and the persisted table's rows are the
original dataset's rows in order. -/
theorem C8_result_table (d : TrainerInput) (foldPred foldProba : Nat → Nat → ℚ)
    (testPred testProba : Nat → ℚ)
    (hdisj : d.foldVal.Pairwise fun a b => ∀ x ∈ a, x ∉ b)
    (htest : ∀ i ∈ d.testIdx, ∀ v ∈ d.foldVal, i ∉ v)
    (hfp : ∀ k i, foldPred k i ≠ -1) (htp : ∀ i, testPred i ≠ -1)
    (hfpp : ∀ k i, foldProba k i ≠ -1) (htpp : ∀ i, testProba i ≠ -1) :
    (∀ i, (train_cross_validation d foldPred foldProba testPred
        testProba).base.testCol i = 1 ↔ i ∈ d.testIdx) ∧
    (∀ j, j < d.foldVal.length → ∀ i ∈ d.foldVal.getD j [],
      (train_cross_validation d foldPred foldProba testPred
        testProba).base.cvCol i = Int.ofNat j) ∧
    (∀ i ∈ d.testIdx, (train_cross_validation d foldPred foldProba testPred
      testProba).base.cvCol i = -1) ∧
    (∀ i, (train_cross_validation d foldPred foldProba testPred
        testProba).pred i = -1 ↔
      i ∉ d.testIdx ∧ ∀ v ∈ d.foldVal, i ∉ v) ∧
    (∀ i, (train_cross_validation d foldPred foldProba testPred
        testProba).proba i = -1 ↔
      i ∉ d.testIdx ∧ ∀ v ∈ d.foldVal, i ∉ v) ∧
    (train_cross_validation d foldPred foldProba testPred
      testProba).base.rows = d.dfIdx := by
  refine ⟨?_, ?_, ?_, ?_, ?_, rfl⟩
  · intro i
    show locConst (fun _ => 0) d.testIdx 1 i = 1 ↔ i ∈ d.testIdx
    rw [locConst]
    by_cases hit : i ∈ d.testIdx
    · rw [if_pos hit]; exact ⟨fun _ => hit, fun _ => rfl⟩
    · rw [if_neg hit]
      exact ⟨fun h => absurd h (by decide), fun h => absurd h hit⟩
  · intro j hj i hi
    show writeCvFrom 0 d.foldVal (fun _ => -1) i = Int.ofNat j
    rw [writeCvFrom_mem d.foldVal 0 _ i j hj hi hdisj, Nat.zero_add]
  · intro i hi
    show writeCvFrom 0 d.foldVal (fun _ => -1) i = -1
    rw [writeCvFrom_not_mem d.foldVal 0 _ i (htest i hi)]
  · exact predCol_sentinel d foldPred testPred hdisj hfp htp
  · exact predCol_sentinel d foldProba testProba hdisj hfpp htpp

/-- C8 witness: a five-row dataset, rows 3 and 4 held out as test, two
folds validating on rows 0 and 1, constant non-sentinel predictions. -/
theorem C8_result_table_witness :
    ((TrainerInput.mk [0, 1, 2, 3, 4] [3, 4] [[0], [1]]).foldVal.Pairwise
        (fun a b => ∀ x ∈ a, x ∉ b) ∧
      (∀ i ∈ (TrainerInput.mk [0, 1, 2, 3, 4] [3, 4] [[0], [1]]).testIdx,
        ∀ v ∈ (TrainerInput.mk [0, 1, 2, 3, 4] [3, 4] [[0], [1]]).foldVal,
          i ∉ v)) ∧
    ((∀ i, (train_cross_validation
        (TrainerInput.mk [0, 1, 2, 3, 4] [3, 4] [[0], [1]])
        (fun _ _ => 1) (fun _ _ => 1/2) (fun _ => 0)
        (fun _ => 3/4)).base.testCol i = 1 ↔
        i ∈ (TrainerInput.mk [0, 1, 2, 3, 4] [3, 4] [[0], [1]]).testIdx) ∧
      (∀ j, j < (TrainerInput.mk [0, 1, 2, 3, 4] [3, 4]
          [[0], [1]]).foldVal.length →
        ∀ i ∈ (TrainerInput.mk [0, 1, 2, 3, 4] [3, 4]
            [[0], [1]]).foldVal.getD j [],
          (train_cross_validation
            (TrainerInput.mk [0, 1, 2, 3, 4] [3, 4] [[0], [1]])
            (fun _ _ => 1) (fun _ _ => 1/2) (fun _ => 0)
            (fun _ => 3/4)).base.cvCol i = Int.ofNat j) ∧
      (∀ i ∈ (TrainerInput.mk [0, 1, 2, 3, 4] [3, 4] [[0], [1]]).testIdx,
        (train_cross_validation
          (TrainerInput.mk [0, 1, 2, 3, 4] [3, 4] [[0], [1]])
          (fun _ _ => 1) (fun _ _ => 1/2) (fun _ => 0)
          (fun _ => 3/4)).base.cvCol i = -1) ∧
      (∀ i, (train_cross_validation
          (TrainerInput.mk [0, 1, 2, 3, 4] [3, 4] [[0], [1]])
          (fun _ _ => 1) (fun _ _ => 1/2) (fun _ => 0)
          (fun _ => 3/4)).pred i = -1 ↔
        i ∉ (TrainerInput.mk [0, 1, 2, 3, 4] [3, 4] [[0], [1]]).testIdx ∧
          ∀ v ∈ (TrainerInput.mk [0, 1, 2, 3, 4] [3, 4] [[0], [1]]).foldVal,
            i ∉ v) ∧
      (∀ i, (train_cross_validation
          (TrainerInput.mk [0, 1, 2, 3, 4] [3, 4] [[0], [1]])
          (fun _ _ => 1) (fun _ _ => 1/2) (fun _ => 0)
          (fun _ => 3/4)).proba i = -1 ↔
        i ∉ (TrainerInput.mk [0, 1, 2, 3, 4] [3, 4] [[0], [1]]).testIdx ∧
          ∀ v ∈ (TrainerInput.mk [0, 1, 2, 3, 4] [3, 4] [[0], [1]]).foldVal,
            i ∉ v) ∧
      (train_cross_validation
        (TrainerInput.mk [0, 1, 2, 3, 4] [3, 4] [[0], [1]])
        (fun _ _ => 1) (fun _ _ => 1/2) (fun _ => 0)
        (fun _ => 3/4)).base.rows =
        (TrainerInput.mk [0, 1, 2, 3, 4] [3, 4] [[0], [1]]).dfIdx) :=
  ⟨⟨by decide, by decide⟩,
    C8_result_table (TrainerInput.mk [0, 1, 2, 3, 4] [3, 4] [[0], [1]])
      (fun _ _ => 1) (fun _ _ => 1/2) (fun _ => 0) (fun _ => 3/4)
      (by decide) (by decide)
      (fun _ _ => by norm_num) (fun _ => by norm_num)
      (fun _ _ => by norm_num) (fun _ => by norm_num)⟩

end RadiomicsTrainer
